import Mathlib

/-!
Shallow embedding of the remote-desktop streaming system
(`capture.py`, `controller.py`, `config.py`, `remote_desktop_app/models.py`,
`remote_desktop_app/server.py`) and proofs of the spec's testable
properties against it.

Python integers are modelled as `Int`, wall-clock times (seconds, from
`time.time()`) as `Rat`, byte payloads and raw images abstractly.
-/

namespace RemoteDesktop

/-! ## Data model (`remote_desktop_app/models.py`) -/

/-- `ServerConfig` dataclass from `models.py` (fields used by validation). -/
structure ServerConfig where
  host : String := "0.0.0.0"
  http_port : Int := 3000
  ws_port : Int := 8765
  metrics_port : Int := 9090
  max_connections : Int := 10
  connection_timeout : Int := 30
deriving Repr, DecidableEq

/-- `PerformanceConfig` dataclass from `models.py`. -/
structure PerformanceConfig where
  max_fps : Int := 30
  jpeg_quality : Int := 75
  compression_level : Int := 6
  frame_queue_size : Int := 3
  mouse_throttle_ms : Int := 16
  enable_h264 : Bool := false
  downscale_threshold : Int := 1920
deriving Repr, DecidableEq

/-- `SecurityConfig` dataclass from `models.py`. `None`-able strings are
`Option String` (Python falsiness of `None` and `""` is modelled where the
code tests truthiness). -/
structure SecurityConfig where
  enable_ssl : Bool := false
  ssl_cert_path : Option String := none
  ssl_key_path : Option String := none
  encryption_key : Option String := none
  auth_required : Bool := false
  auth_token : Option String := none
  allowed_ips : List String := []
  block_end_key : Bool := true
deriving Repr, DecidableEq

/-- `FeatureConfig` dataclass from `models.py`. -/
structure FeatureConfig where
  enable_audio : Bool := false
  enable_clipboard : Bool := true
  enable_file_transfer : Bool := true
  enable_session_recording : Bool := false
  enable_multi_monitor : Bool := true
  enable_auto_click : Bool := true
  enable_keyboard_shortcuts : Bool := true
deriving Repr, DecidableEq

/-- `LoggingConfig` dataclass from `models.py`. -/
structure LoggingConfig where
  log_level : String := "INFO"
  log_file : String := "remote-desktop.log"
  log_max_size : Int := 10
  log_backup_count : Int := 5
  enable_access_log : Bool := true
  enable_error_log : Bool := true
deriving Repr, DecidableEq

/-- `SystemConfig` container dataclass from `models.py`. -/
structure SystemConfig where
  server : ServerConfig := {}
  performance : PerformanceConfig := {}
  security : SecurityConfig := {}
  features : FeatureConfig := {}
  logging : LoggingConfig := {}
deriving Repr, DecidableEq

/-! ## Frame buffer (`queue.Queue` as used by `ScreenCaptureEngine`)

`capture.py` creates `queue.Queue(maxsize=config.frame_queue_size)` and in
`_capture_loop` pushes each encoded frame with

    if self.frame_queue.full():
        try: self.frame_queue.get_nowait()
        except queue.Empty: pass
    self.frame_queue.put(frame_data)

A `queue.Queue` with positive `maxsize` is a FIFO list: `put` appends at the
tail, `get_nowait` removes the head, `full()` holds when the length has
reached `maxsize`. -/

/-- FIFO queue with a capacity bound, head = oldest element. -/
structure FrameQueue (α : Type) where
  maxsize : Nat
  items : List α
deriving Repr, DecidableEq

/-- `queue.Queue.full()` for a positive `maxsize`. -/
def FrameQueue.full (q : FrameQueue α) : Bool :=
  q.items.length ≥ q.maxsize

/-- `queue.Queue.get_nowait()`: drop the oldest entry (head); on an empty
queue the caller swallows `queue.Empty`, so this is the identity there. -/
def FrameQueue.getNowait (q : FrameQueue α) : FrameQueue α :=
  { q with items := q.items.tail }

/-- `queue.Queue.put(x)`: append at the tail. -/
def FrameQueue.put (q : FrameQueue α) (x : α) : FrameQueue α :=
  { q with items := q.items ++ [x] }

/-- The producer-side push of `ScreenCaptureEngine._capture_loop`
(capture.py lines 80–87): when the queue is full, non-blockingly evict the
current head before inserting the newest frame. -/
def pushFrame (q : FrameQueue α) (x : α) : FrameQueue α :=
  let q' := if q.full then q.getNowait else q
  q'.put x

/-- The empty frame queue created by `ScreenCaptureEngine.__init__` for a
given capacity. -/
def FrameQueue.empty (α : Type) (maxsize : Nat) : FrameQueue α :=
  ⟨maxsize, []⟩

/-! ## Event broadcaster (`EventBroadcaster` in `capture.py`)

The registry `self.clients` is a Python `set`; the metric
`self.metrics.connected_clients` is a counter that `add_client` increments
and `remove_client` clears (resets to zero).  `broadcast_frame` fans the
payload out with `asyncio.gather(..., return_exceptions=True)` over a list
comprehension built from the current clients; `_send_to_client` sends to
one client and, on any exception, calls `self.remove_client(client)`.

Sessions are an abstract type `σ` with decidable equality; the set is a
duplicate-free list; which transports fail on send is a parameter
`fails : σ → Bool`. -/

/-- `EventBroadcaster` state: client registry plus the
`connected_clients` metric counter. -/
structure Broadcaster (σ : Type) where
  clients : List σ
  connectedClients : Nat
deriving Repr, DecidableEq

/-- `EventBroadcaster.add_client`: `self.clients.add(client)` (a set add:
no duplicate is created) then `self.metrics.connected_clients.inc()`. -/
def addClient [DecidableEq σ] (b : Broadcaster σ) (c : σ) : Broadcaster σ :=
  { clients := if c ∈ b.clients then b.clients else b.clients ++ [c]
    connectedClients := b.connectedClients + 1 }

/-- `EventBroadcaster.remove_client`: `self.clients.discard(client)` (no
error when absent) then `self.metrics.connected_clients.clear()`, which
resets the counter to zero. -/
def removeClient [DecidableEq σ] (b : Broadcaster σ) (c : σ) : Broadcaster σ :=
  { clients := b.clients.erase c
    connectedClients := 0 }

/-- `EventBroadcaster._send_to_client` for one client: on success the
client receives the payload once; on failure the client is removed from
the registry and receives nothing.  Returns the new state and the list of
deliveries made (length 0 or 1). -/
def sendToClient [DecidableEq σ] (b : Broadcaster σ) (fails : σ → Bool)
    (c : σ) : Broadcaster σ × List σ :=
  if fails c then (removeClient b c, []) else (b, [c])

/-- `EventBroadcaster.broadcast_frame`: snapshot the registry (the list
comprehension over `self.clients` is built once), then attempt delivery to
every client in the snapshot; `return_exceptions=True` means one failure
aborts nothing.  Returns the final state and the multiset of deliveries
(one entry per copy received, in snapshot order). -/
def broadcastFrame [DecidableEq σ] (b : Broadcaster σ) (fails : σ → Bool) :
    Broadcaster σ × List σ :=
  b.clients.foldl
    (fun acc c =>
      let r := sendToClient acc.1 fails c
      (r.1, acc.2 ++ r.2))
    (b, [])

/-! ## Input controller (`InputController` in `controller.py`)

Wall-clock times from `time.time()` are rationals (seconds).  Whether the
actuator was called is returned explicitly. -/

/-- Mutable state of `InputController`: `last_move_time`, the
`auto_click_active` flag, and the actuator's cursor position. -/
structure InputState where
  last_move_time : Rat := 0
  auto_click_active : Bool := false
  mousePos : Int × Int := (0, 0)
deriving Repr, DecidableEq

/-- `InputController._move_mouse` (controller.py lines 130–135): the move is
applied only when `current_time - self.last_move_time >
(mouse_throttle_ms / 1000)`; otherwise it is silently dropped and
`last_move_time` is not updated.  Returns the new state and whether the
actuator position was set. -/
def moveMouse (cfg : PerformanceConfig) (st : InputState) (t : Rat)
    (x y : Int) : InputState × Bool :=
  if t - st.last_move_time > (cfg.mouse_throttle_ms : Rat) / 1000 then
    ({ st with mousePos := (x, y), last_move_time := t }, true)
  else
    (st, false)

/-- Python's `str.lower()` on the keys in play: character-wise lowercase. -/
def strLower (s : String) : String :=
  ⟨s.data.map Char.toLower⟩

/-- The guard of the `action == "key"` branch of
`InputController.handle_command` (controller.py lines 115–118):

    if key and (key.lower() != "end" or not self.config.security.block_end_key):
        self._press_key(key)

`key` is `command.get("key")`, so a missing key is `None`; `None` and the
empty string are falsy in Python.  Returns whether `_press_key` is invoked,
i.e. whether the key command reaches the keyboard actuator. -/
def keyReachesActuator (sec : SecurityConfig) (key : Option String) : Bool :=
  match key with
  | none => false
  | some k => (!(k == "")) && ((!(strLower k == "end")) || (!sec.block_end_key))

/-- `action == "start_auto_click"` branch of `handle_command`: sets the
shared flag (the loop itself is spawned as a task). -/
def startAutoClick (st : InputState) : InputState :=
  { st with auto_click_active := true }

/-- `action == "stop_auto_click"` branch of `handle_command`: clears the
shared flag. -/
def stopAutoClick (st : InputState) : InputState :=
  { st with auto_click_active := false }

/-- Trace of `InputController._auto_click_loop` (controller.py lines
221–237): while the flag reads true, perform a left click and sleep
`1 + random.random() * 2` seconds; an exception during injection breaks the
loop.  `flag i` is the value of `auto_click_active` read at iteration `i`,
`err i` whether injection raises there, `rand i` the value drawn from
`random.random()`, `t` the current clock and `i` the iteration index.
Returns the times of the clicks performed (the loop is cooperative and
unbounded, so it is unrolled on `fuel`). -/
def autoClickClicks : Nat → (Nat → Bool) → (Nat → Bool) → (Nat → Rat) →
    Rat → Nat → List Rat
  | 0, _, _, _, _, _ => []
  | fuel + 1, flag, err, rand, t, i =>
    if flag i then
      if err i then []
      else t :: autoClickClicks fuel flag err rand (t + (1 + rand i * 2)) (i + 1)
    else []

/-! ## Frame encoding (`_capture_loop` / `_optimize_image` in `capture.py`)

Raw pixel buffers and the cv2 primitives are abstract: an image is either
a raw grab of given dimensions or the result of a `cv2.resize` with its
scale factors and interpolation mode. -/

/-- Interpolation modes of `cv2.resize` relevant here (`INTER_AREA` is the
one the code uses). -/
inductive Interp where
  | area
  | linear
deriving Repr, DecidableEq

/-- Abstract image value. -/
inductive Img where
  | raw (width height : Nat)
  | resized (src : Img) (fx fy : Rat) (interp : Interp)
deriving Repr, DecidableEq

/-- Pixel width; `cv2.resize(img, None, fx, fy)` rounds `width * fx`. -/
def Img.width : Img → Nat
  | .raw w _ => w
  | .resized src fx _ _ => (round ((src.width : Rat) * fx)).toNat

/-- Pixel height; `cv2.resize(img, None, fx, fy)` rounds `height * fy`. -/
def Img.height : Img → Nat
  | .raw _ h => h
  | .resized src _ fy _ => (round ((src.height : Rat) * fy)).toNat

/-- `ScreenCaptureEngine._optimize_image` (capture.py lines 98–106): if
either dimension exceeds `downscale_threshold`, resize by
`scale = min(threshold/width, threshold/height)` on both axes with
`cv2.INTER_AREA`; otherwise return the image unchanged. -/
def optimizeImage (cfg : PerformanceConfig) (img : Img) : Img :=
  let height := img.height
  let width := img.width
  if (width : Int) > cfg.downscale_threshold ∨
      (height : Int) > cfg.downscale_threshold then
    let scale := min ((cfg.downscale_threshold : Rat) / width)
      ((cfg.downscale_threshold : Rat) / height)
    .resized img scale scale .area
  else img

/-- The encoded frame produced by one iteration of `_capture_loop`: the
image that was handed to `cv2.imencode`, the JPEG quality used, and
whether the zlib pass was applied. -/
structure EncodedFrame where
  img : Img
  quality : Int
  zlibCompressed : Bool
deriving Repr, DecidableEq

/-- The per-frame encode step of `_capture_loop` (capture.py lines 58–77):
`_optimize_image` runs only under `if self.config.jpeg_quality < 90`; the
result is JPEG-encoded at `jpeg_quality` and zlib-compressed when
`compression_level > 0`. -/
def encodeFrame (cfg : PerformanceConfig) (img : Img) : EncodedFrame :=
  let img' := if cfg.jpeg_quality < 90 then optimizeImage cfg img else img
  { img := img'
    quality := cfg.jpeg_quality
    zlibCompressed := cfg.compression_level > 0 }

/-! ## Monitor selection (`ScreenCaptureEngine` in `capture.py`) -/

/-- The monitor-related state of `ScreenCaptureEngine`; monitors are
abstract handles (the entries of `sct.monitors[1:]`). -/
structure CaptureEngine (μ : Type) where
  monitors : List μ
  current_monitor : Nat := 0
  running : Bool := false
deriving Repr, DecidableEq

/-- `ScreenCaptureEngine.switch_monitor` (capture.py lines 108–112):
`if 0 <= monitor_index < len(self.monitors)` update `current_monitor`,
else do nothing. -/
def switchMonitor (e : CaptureEngine μ) (monitor_index : Int) :
    CaptureEngine μ :=
  if 0 ≤ monitor_index ∧ monitor_index < e.monitors.length then
    { e with current_monitor := monitor_index.toNat }
  else e

/-- The grab source of each `_capture_loop` iteration (capture.py lines
48–54): `monitor = self.monitors[self.current_monitor]` is bound once,
before the `while self.running` loop, from the state at loop entry;
every subsequent iteration grabs from that binding, regardless of later
changes to `current_monitor`. -/
def captureLoopSources (e : CaptureEngine μ) (dflt : μ) (iters : Nat) :
    List μ :=
  let monitor := e.monitors.getD e.current_monitor dflt
  List.replicate iters monitor

/-! ## System commands (`RemoteDesktopServer._handle_system_command`,
`remote_desktop_app/server.py` lines 271–293) -/

/-- Parsed system command (`{type: "command"}` envelope): the `action`
field with its optional parameters (`data.get('quality', 75)`,
`data.get('fps', 30)`). -/
inductive SysCommand where
  | start_auto_click
  | stop_auto_click
  | set_quality (quality : Option Int)
  | set_fps (fps : Option Int)
  | unknownAction (action : String)
deriving Repr, DecidableEq

/-- The server state touched by `_handle_system_command`: the running
performance settings, the input controller state, and the log. -/
structure ServerState where
  performance : PerformanceConfig
  input : InputState
  log : List String
deriving Repr, DecidableEq

/-- `RemoteDesktopServer._handle_system_command`: auto-click actions are
forwarded to `InputController.handle_command`; `set_quality` and `set_fps`
only log the received value and touch nothing else; unknown actions log a
warning. -/
def handleSystemCommand (st : ServerState) (cmd : SysCommand) : ServerState :=
  match cmd with
  | .start_auto_click => { st with input := startAutoClick st.input }
  | .stop_auto_click => { st with input := stopAutoClick st.input }
  | .set_quality q =>
      let quality := q.getD 75
      { st with log := st.log ++ [s!"Quality setting changed to: {quality}%"] }
  | .set_fps f =>
      let fps := f.getD 30
      { st with log := st.log ++ [s!"FPS setting changed to: {fps}"] }
  | .unknownAction a =>
      { st with log := st.log ++ [s!"Unknown system command action: {a}"] }

/-! ## Configuration validation (`ConfigManager.validate_config`,
`config.py` lines 52–96) -/

/-- Python truthiness of an optional string: `None` and `""` are falsy. -/
def optStrTruthy : Option String → Bool
  | none => false
  | some s => !(s == "")

/-- `ConfigManager.validate_config`: each range check returns `False` on
violation, so validation succeeds exactly when all checks pass.
`fileExists` abstracts `os.path.exists`. -/
def validateConfig (fileExists : String → Bool) (c : SystemConfig) : Bool :=
  (decide (1 ≤ c.server.http_port) && decide (c.server.http_port ≤ 65535)) &&
  (decide (1 ≤ c.server.ws_port) && decide (c.server.ws_port ≤ 65535)) &&
  (decide (1 ≤ c.performance.max_fps) &&
    decide (c.performance.max_fps ≤ 120)) &&
  (decide (10 ≤ c.performance.jpeg_quality) &&
    decide (c.performance.jpeg_quality ≤ 100)) &&
  (decide (0 ≤ c.performance.compression_level) &&
    decide (c.performance.compression_level ≤ 9)) &&
  (if c.security.enable_ssl then
    (optStrTruthy c.security.ssl_cert_path &&
      fileExists (c.security.ssl_cert_path.getD "")) &&
    (optStrTruthy c.security.ssl_key_path &&
      fileExists (c.security.ssl_key_path.getD ""))
  else true) &&
  (["DEBUG", "INFO", "WARNING", "ERROR", "CRITICAL"].contains
    c.logging.log_level)

end RemoteDesktop

namespace RemoteDesktop

/-- C1: For a frame buffer of capacity 1, pushing frames F1, F2, F3 in order
with no intervening drain leaves exactly F3 retrievable: the producer evicts
the current entry before inserting the newest, so F1 and F2 are evicted and
never delivered. -/
theorem latest_wins_capacity_one (α : Type) (f1 f2 f3 : α) :
    (pushFrame (pushFrame (pushFrame (FrameQueue.empty α 1) f1) f2) f3).items
      = [f3] := by
  simp [pushFrame, FrameQueue.empty, FrameQueue.full, FrameQueue.getNowait,
    FrameQueue.put]

/-- C2: With sessions {A, B, C} registered and B's transport failing on
send, broadcasting one frame delivers exactly one copy to A and to C and
none to B, removes only B from the registry, and B's failure neither blocks
nor duplicates delivery to A or C. -/
theorem fanout_isolation (σ : Type) [DecidableEq σ] (a b c : σ)
    (hab : a ≠ b) (hac : a ≠ c) (hbc : b ≠ c) (m : Nat) (fails : σ → Bool)
    (hfa : fails a = false) (hfb : fails b = true) (hfc : fails c = false) :
    (broadcastFrame (⟨[a, b, c], m⟩ : Broadcaster σ) fails).2 = [a, c] ∧
    (broadcastFrame (⟨[a, b, c], m⟩ : Broadcaster σ) fails).1.clients
      = [a, c] ∧
    ((broadcastFrame (⟨[a, b, c], m⟩ : Broadcaster σ) fails).2.count a = 1 ∧
     (broadcastFrame (⟨[a, b, c], m⟩ : Broadcaster σ) fails).2.count b = 0 ∧
     (broadcastFrame (⟨[a, b, c], m⟩ : Broadcaster σ) fails).2.count c = 1) := by
  have hstep : broadcastFrame (⟨[a, b, c], m⟩ : Broadcaster σ) fails
      = (⟨[a, c], 0⟩, [a, c]) := by
    simp [broadcastFrame, sendToClient, removeClient, hfa, hfb, hfc,
      List.erase_cons, hab, hab.symm, hbc]
  refine ⟨by simp [hstep], by simp [hstep], ?_, ?_, ?_⟩ <;>
    simp [hstep, List.count_cons, hac, hab.symm, hbc.symm, hac.symm]

/-- Witness for C2 at concrete sessions 0, 1, 2 with session 1 failing. -/
theorem fanout_isolation_witness :
    (broadcastFrame (⟨[0, 1, 2], 7⟩ : Broadcaster Nat) (fun x => x == 1)).2
      = [0, 2] ∧
    (broadcastFrame (⟨[0, 1, 2], 7⟩ : Broadcaster Nat)
        (fun x => x == 1)).1.clients = [0, 2] :=
  ⟨(fanout_isolation Nat 0 1 2 (by decide) (by decide) (by decide) 7
      (fun x => x == 1) (by decide) (by decide) (by decide)).1,
   (fanout_isolation Nat 0 1 2 (by decide) (by decide) (by decide) 7
      (fun x => x == 1) (by decide) (by decide) (by decide)).2.1⟩

/-- C10: `remove_client` removes only the given client from the registry
(removal of an absent client is a no-op and raises nothing), but it resets
the connected-clients metric counter to zero instead of decrementing it,
so after any single disconnect the metric reads 0 even when other clients
remain registered. -/
theorem remove_client_resets_metric (σ : Type) [DecidableEq σ]
    (st : Broadcaster σ) (x : σ) :
    (removeClient st x).clients = st.clients.erase x ∧
    (removeClient st x).connectedClients = 0 ∧
    (x ∉ st.clients → (removeClient st x).clients = st.clients) ∧
    (∀ y, y ≠ x → (y ∈ (removeClient st x).clients ↔ y ∈ st.clients)) := by
  refine ⟨rfl, rfl, fun hx => ?_, fun y hy => ?_⟩
  · simp [removeClient, List.erase_of_not_mem hx]
  · simp [removeClient, List.mem_erase_of_ne hy]

/-- Witness for C10: two clients connected (metric 2); disconnecting
client 0 leaves client 1 registered yet the metric reads 0. -/
theorem remove_client_resets_metric_witness :
    (removeClient (⟨[0, 1], 2⟩ : Broadcaster Nat) 0).clients = [1] ∧
    (removeClient (⟨[0, 1], 2⟩ : Broadcaster Nat) 0).connectedClients = 0 :=
  ⟨by
    have h := (remove_client_resets_metric Nat (⟨[0, 1], 2⟩ : Broadcaster Nat) 0).1
    simpa using h,
   (remove_client_resets_metric Nat (⟨[0, 1], 2⟩ : Broadcaster Nat) 0).2.1⟩

/-- C3: With `mouse_throttle_ms = 16`, of two move commands issued 5 ms
apart exactly one updates the actuator position (the second is silently
dropped and leaves the whole state, including the last-move timestamp,
unchanged), while two move commands issued 20 ms apart each update the
actuator position. -/
theorem move_throttling (cfg : PerformanceConfig)
    (hcfg : cfg.mouse_throttle_ms = 16) (st : InputState) (t1 : Rat)
    (x1 y1 x2 y2 : Int)
    (h1 : t1 - st.last_move_time > (cfg.mouse_throttle_ms : Rat) / 1000) :
    (moveMouse cfg st t1 x1 y1).2 = true ∧
    (moveMouse cfg (moveMouse cfg st t1 x1 y1).1 (t1 + 5 / 1000) x2 y2).2
      = false ∧
    (moveMouse cfg (moveMouse cfg st t1 x1 y1).1 (t1 + 5 / 1000) x2 y2).1
      = (moveMouse cfg st t1 x1 y1).1 ∧
    (moveMouse cfg (moveMouse cfg st t1 x1 y1).1 (t1 + 20 / 1000) x2 y2).2
      = true := by
  have hfirst : moveMouse cfg st t1 x1 y1
      = ({ st with mousePos := (x1, y1), last_move_time := t1 }, true) := by
    simp [moveMouse, h1]
  have h5 : ¬ ((cfg.mouse_throttle_ms : Rat) / 1000 < 5 / 1000) := by
    rw [hcfg]; push_cast; norm_num
  have h20 : (cfg.mouse_throttle_ms : Rat) / 1000 < 20 / 1000 := by
    rw [hcfg]; push_cast; norm_num
  refine ⟨by simp [hfirst], ?_, ?_, ?_⟩
  · rw [hfirst]; simp [moveMouse, h5]
  · rw [hfirst]; simp [moveMouse, h5]
  · rw [hfirst]; simp [moveMouse, h20]

/-- Concrete throttle guard for the default configuration: at t = 1 s and
`last_move_time = 0`, the elapsed time exceeds 16 ms. -/
lemma witness_move_guard :
    (1 : Rat) - ({} : InputState).last_move_time
      > ((({} : PerformanceConfig).mouse_throttle_ms : Rat)) / 1000 := by
  norm_num [InputState.last_move_time, PerformanceConfig.mouse_throttle_ms]

/-- Witness for C3 at the default configuration, initial state
(`last_move_time = 0`) and a first move at t = 1 s. -/
theorem move_throttling_witness :
    (moveMouse {} {} 1 10 20).2 = true ∧
    (moveMouse {} (moveMouse {} {} 1 10 20).1 (1 + 5 / 1000) 30 40).2
      = false ∧
    (moveMouse {} (moveMouse {} {} 1 10 20).1 (1 + 20 / 1000) 30 40).2
      = true := by
  have h := move_throttling {} rfl {} 1 10 20 30 40 witness_move_guard
  exact ⟨h.1, h.2.1, h.2.2.2⟩

/-- C8: After `start_auto_click` sets the flag (and before `stop_auto_click`
or an error), the auto-click loop clicks immediately — at least one click
within 3 seconds of its start; from any iteration at which the flag reads
false, no further clicks occur; an injection error inside the loop also
terminates it; each inter-click delay `1 + random() * 2` lies in [1, 3). -/
theorem auto_click_termination (flag err : Nat → Bool) (rand : Nat → Rat) :
    (∀ st : InputState, (startAutoClick st).auto_click_active = true ∧
      (stopAutoClick st).auto_click_active = false) ∧
    (∀ (f : Nat) (t0 : Rat), flag 0 = true → err 0 = false →
      ∃ c ∈ autoClickClicks (f + 1) flag err rand t0 0, c - t0 ≤ 3) ∧
    (∀ (g : Nat) (t : Rat) (i : Nat), flag i = false →
      autoClickClicks g flag err rand t i = []) ∧
    (∀ (g : Nat) (t : Rat) (i : Nat), err i = true →
      autoClickClicks g flag err rand t i = []) ∧
    (∀ i, 0 ≤ rand i → rand i < 1 →
      1 ≤ 1 + rand i * 2 ∧ 1 + rand i * 2 < 3) := by
  refine ⟨fun st => ⟨rfl, rfl⟩, ?_, ?_, ?_, ?_⟩
  · intro f t0 hflag herr
    refine ⟨t0, ?_, by linarith⟩
    simp [autoClickClicks, hflag, herr]
  · intro g t i h
    cases g <;> simp [autoClickClicks, h]
  · intro g t i h
    cases g <;> simp [autoClickClicks, h]
  · intro i h0 h1
    constructor
    · nlinarith
    · nlinarith

/-- Counterexample for C4 as stated: with the block policy enabled, the
empty-string key is not the sentinel "end" in any letter case, yet the
command never reaches the keyboard actuator (the Python guard `if key and
...` drops falsy keys). -/
theorem end_key_block_counterexample :
    strLower "" ≠ "end" ∧
    keyReachesActuator { block_end_key := true } (some "") = false := by
  exact ⟨by decide, rfl⟩

/-- C4 (amended): with the block policy enabled, a key command reaches the
keyboard actuator exactly when its key is nonempty and does not lowercase
to the sentinel "end"; with the policy disabled it reaches the actuator
exactly when the key is nonempty (so the sentinel is injected); a command
with no key never reaches the actuator. -/
theorem end_key_block (sec : SecurityConfig) (k : String) :
    (sec.block_end_key = true →
      (keyReachesActuator sec (some k) = true
        ↔ (k ≠ "" ∧ strLower k ≠ "end"))) ∧
    (sec.block_end_key = false →
      (keyReachesActuator sec (some k) = true ↔ k ≠ "")) ∧
    keyReachesActuator sec none = false := by
  refine ⟨fun h => ?_, fun h => ?_, rfl⟩ <;>
    simp [keyReachesActuator, h]

/-- Witness for C4: "END" is blocked when the policy is on, "a" passes,
and "end" is injected when the policy is off. -/
theorem end_key_block_witness :
    keyReachesActuator { block_end_key := true } (some "END") = false ∧
    keyReachesActuator { block_end_key := true } (some "a") = true ∧
    keyReachesActuator { block_end_key := false } (some "end") = true := by
  refine ⟨?_, ?_, ?_⟩
  · have h1 := (end_key_block { block_end_key := true } "END").1 rfl
    have h2 : ¬ (keyReachesActuator { block_end_key := true }
        (some "END") = true) := by
      rw [h1]; decide
    exact Bool.eq_false_iff.mpr h2
  · exact ((end_key_block { block_end_key := true } "a").1 rfl).mpr
      ⟨by decide, by decide⟩
  · exact ((end_key_block { block_end_key := false } "end").2.1 rfl).mpr
      (by decide)

/-- Witness for C8: flag always set, no errors, `random()` returning 0;
the first click of a 2-fuel run happens at the start time 0 (within 3 s),
a run whose flag reads false performs no clicks, and the delay lies in
[1, 3). -/
theorem auto_click_termination_witness :
    (∃ c ∈ autoClickClicks 2 (fun _ => true) (fun _ => false)
        (fun _ => 0) 0 0, c - 0 ≤ 3) ∧
    autoClickClicks 5 (fun _ => false) (fun _ => false)
        (fun _ => 0) 0 0 = [] ∧
    (1 ≤ 1 + (0 : Rat) * 2 ∧ 1 + (0 : Rat) * 2 < 3) :=
  ⟨(auto_click_termination (fun _ => true) (fun _ => false)
      (fun _ => 0)).2.1 1 0 rfl rfl,
   (auto_click_termination (fun _ => false) (fun _ => false)
      (fun _ => 0)).2.2.1 5 0 0 rfl,
   (auto_click_termination (fun _ => true) (fun _ => false)
      (fun _ => 0)).2.2.2.2 0 (le_refl 0) zero_lt_one⟩

/-- Counterexample for C5 as stated: with `jpeg_quality = 90` (all other
settings default, threshold 1920), a 2000×1080 frame exceeds the
threshold yet is encoded unscaled, because `_optimize_image` only runs
when `jpeg_quality < 90`. -/
theorem frame_downscale_counterexample :
    (2000 : Int) > ({ jpeg_quality := 90 } :
        PerformanceConfig).downscale_threshold ∧
    (encodeFrame { jpeg_quality := 90 } (.raw 2000 1080)).img
      = .raw 2000 1080 :=
  ⟨by decide, rfl⟩

/-- C5 (amended): when `jpeg_quality < 90` (the only case in which
`_capture_loop` applies optimizations), every frame whose width or height
exceeds `downscale_threshold` is uniformly scaled by
`min(threshold/width, threshold/height)` on both axes with area-averaging
resampling before JPEG encoding, and frames within the threshold are
encoded unscaled; when `jpeg_quality ≥ 90` no downscaling happens at all. -/
theorem frame_downscale (cfg : PerformanceConfig) (w h : Nat)
    (hq : cfg.jpeg_quality < 90) :
    (((w : Int) > cfg.downscale_threshold ∨
        (h : Int) > cfg.downscale_threshold) →
      (encodeFrame cfg (.raw w h)).img
        = .resized (.raw w h)
            (min ((cfg.downscale_threshold : Rat) / w)
              ((cfg.downscale_threshold : Rat) / h))
            (min ((cfg.downscale_threshold : Rat) / w)
              ((cfg.downscale_threshold : Rat) / h))
            .area) ∧
    ((¬ ((w : Int) > cfg.downscale_threshold ∨
        (h : Int) > cfg.downscale_threshold)) →
      (encodeFrame cfg (.raw w h)).img = .raw w h) ∧
    (encodeFrame cfg (.raw w h)).quality = cfg.jpeg_quality := by
  refine ⟨fun hdim => ?_, fun hdim => ?_, by simp [encodeFrame]⟩
  · simp [encodeFrame, optimizeImage, hq, Img.width, Img.height, hdim]
  · simp [encodeFrame, optimizeImage, hq, Img.width, Img.height, hdim]

/-- Witness for C5 at the default configuration (quality 75, threshold
1920): a 3840×2160 frame is scaled by min(1920/3840, 1920/2160) with area
resampling, and a 1280×720 frame is left unscaled. -/
theorem frame_downscale_witness :
    (encodeFrame {} (.raw 3840 2160)).img
      = .resized (.raw 3840 2160)
          (min ((({} : PerformanceConfig).downscale_threshold : Rat) / 3840)
            ((({} : PerformanceConfig).downscale_threshold : Rat) / 2160))
          (min ((({} : PerformanceConfig).downscale_threshold : Rat) / 3840)
            ((({} : PerformanceConfig).downscale_threshold : Rat) / 2160))
          .area ∧
    (encodeFrame {} (.raw 1280 720)).img = .raw 1280 720 :=
  ⟨(frame_downscale {} 3840 2160 (by decide)).1 (Or.inl (by decide)),
   (frame_downscale {} 1280 720 (by decide)).2.1 (by decide)⟩

/-- C6 / code bug: `switch_monitor(1)` on a two-monitor engine updates
`current_monitor` to 1 (and out-of-bounds indices are no-ops), but the
capture loop binds `monitor = self.monitors[self.current_monitor]` once
before its `while` loop, so a loop entered with monitor 0 selected keeps
grabbing monitor 0 on every subsequent iteration — the newly selected
monitor is never grabbed by the running loop, contrary to the claim. -/
theorem switch_monitor_stale_binding (μ : Type) (m0 m1 dflt : μ) (n : Nat) :
    (switchMonitor (⟨[m0, m1], 0, true⟩ : CaptureEngine μ) 1).current_monitor
      = 1 ∧
    (switchMonitor (⟨[m0, m1], 0, true⟩ : CaptureEngine μ) 2)
      = ⟨[m0, m1], 0, true⟩ ∧
    (switchMonitor (⟨[m0, m1], 0, true⟩ : CaptureEngine μ) (-1))
      = ⟨[m0, m1], 0, true⟩ ∧
    captureLoopSources (⟨[m0, m1], 0, true⟩ : CaptureEngine μ) dflt n
      = List.replicate n m0 ∧
    (⟨[m0, m1], 1, true⟩ : CaptureEngine μ).monitors.getD 1 dflt = m1 := by
  refine ⟨?_, ?_, ?_, ?_, rfl⟩ <;>
    simp [switchMonitor, captureLoopSources]

/-- C7: Handling a `{type: "command"}` message with action `set_quality`
or `set_fps` leaves every field of the running `PerformanceConfig`
unchanged (and the input-controller state unchanged); the command is
accepted and exactly one log line is appended, but never applied. -/
theorem set_quality_fps_only_logged (st : ServerState) (q f : Option Int) :
    (handleSystemCommand st (.set_quality q)).performance = st.performance ∧
    (handleSystemCommand st (.set_fps f)).performance = st.performance ∧
    (handleSystemCommand st (.set_quality q)).input = st.input ∧
    (handleSystemCommand st (.set_fps f)).input = st.input ∧
    (handleSystemCommand st (.set_quality q)).log.length
      = st.log.length + 1 ∧
    (handleSystemCommand st (.set_fps f)).log.length = st.log.length + 1 := by
  refine ⟨rfl, rfl, rfl, rfl, ?_, ?_⟩ <;> simp [handleSystemCommand]

/-- Counterexample for C9 as stated: encode quality 5 lies in the
documented range 0–100 and every other setting is the (valid) default,
yet `validate_config` fails, because the code requires
`10 <= jpeg_quality <= 100`. -/
theorem quality_range_counterexample :
    (0 : Int) ≤ ({ performance := { jpeg_quality := 5 } } :
        SystemConfig).performance.jpeg_quality ∧
    ({ performance := { jpeg_quality := 5 } } :
        SystemConfig).performance.jpeg_quality ≤ 100 ∧
    validateConfig (fun _ => false)
      { performance := { jpeg_quality := 5 } } = false :=
  ⟨by decide, by decide, by decide⟩

/-- C9 (amended): for every configuration whose other checked settings are
valid (ports in 1–65535, fps in 1–120, compression in 0–9, SSL disabled,
known log level), validation succeeds exactly when the encode quality lies
between 10 and 100 — so every value in 10–100 is valid, and values 0–9 of
the documented 0–100 range are rejected. -/
theorem quality_valid_range (fe : String → Bool) (c : SystemConfig)
    (hhttp : 1 ≤ c.server.http_port ∧ c.server.http_port ≤ 65535)
    (hws : 1 ≤ c.server.ws_port ∧ c.server.ws_port ≤ 65535)
    (hfps : 1 ≤ c.performance.max_fps ∧ c.performance.max_fps ≤ 120)
    (hcomp : 0 ≤ c.performance.compression_level ∧
      c.performance.compression_level ≤ 9)
    (hssl : c.security.enable_ssl = false)
    (hlog : c.logging.log_level ∈
      ["DEBUG", "INFO", "WARNING", "ERROR", "CRITICAL"]) :
    validateConfig fe c = true ↔
      (10 ≤ c.performance.jpeg_quality ∧
        c.performance.jpeg_quality ≤ 100) := by
  simp [validateConfig, hssl, hhttp.1, hhttp.2, hws.1, hws.2, hfps.1,
    hfps.2, hcomp.1, hcomp.2, List.contains, List.elem_eq_mem, hlog]

/-- Witness for C9 at the default configuration (quality 75, SSL off,
log level INFO): validation succeeds. -/
theorem quality_valid_range_witness :
    validateConfig (fun _ => false) {} = true :=
  (quality_valid_range (fun _ => false) {} ⟨by decide, by decide⟩
      ⟨by decide, by decide⟩ ⟨by decide, by decide⟩ ⟨by decide, by decide⟩
      rfl (by decide)).mpr ⟨by decide, by decide⟩

end RemoteDesktop
